import Mathlib

/-!
Verification of the jenkins-tui core against its specification.

This file gives a shallow embedding, in Lean 4, of the parts of the
jenkins-tui repository that the verified claims are about:

* the protocol client's CSRF-crumb negotiation
  (`internal/jenkins/client.go`: `doRequest`, `fetchCrumb`),
* job-path URL encoding (`encodeJobPath` and Go's `url.PathEscape` in
  path-segment mode),
* the application controller's message dispatch and auto-refresh
  scheduling (`internal/app/model.go`),
* the dashboard, views and builds tab models and their message merge
  functions (`internal/app/setup.go`, `internal/app/views.go`, and the
  builds tab file).

Go slices are modelled as `List`, Go `int`/`int64` as `Int` (with explicit
two's-complement wraparound where overflow is relevant), pointers that are
used as optional values as `Option`, and Go strings as `String` (encoded
to UTF-8 bytes where the code operates on bytes).  Fallible operations
(HTTP calls, slice indexing that can panic) return `Option`/`Except`.
-/

namespace JenkinsTui

/-! ## Protocol client: crumb negotiation (internal/jenkins/client.go)

The client's mutable crumb fields (`crumb`, `crumbField`, `crumbTested`)
form the client state.  The HTTP server is modelled as an oracle mapping
the index of each outgoing request (in issue order) to its response; a
response carries its status code and, when the body decodes as a
`{crumb, crumbRequestField}` JSON object, those two fields.  `doRequest`
is fuel-indexed because the Go function retries itself recursively after
a successful crumb fetch. -/

inductive Method
  | get
  | post
deriving DecidableEq, Repr

/-- Client crumb state: fields `crumb`, `crumbField`, `crumbTested` of
`jenkins.Client`. -/
structure ClientState where
  crumb : String
  crumbField : String
  crumbTested : Bool
deriving DecidableEq, Repr

/-- State of a freshly constructed client (`NewClient` leaves the crumb
fields at their zero values). -/
def initialClientState : ClientState :=
  { crumb := "", crumbField := "", crumbTested := false }

/-- One outgoing HTTP request as assembled by `doRequest`: method, path and
the crumb header attached to it, if any (header field name, header value). -/
structure HttpRequest where
  method : Method
  path : String
  crumbHeader : Option (String × String)
deriving DecidableEq, Repr

/-- One HTTP response: status code, and the result of decoding the body as
a `{crumb, crumbRequestField}` object — `some (crumb, crumbRequestField)`
when it decodes, `none` when it does not. -/
structure HttpResponse where
  status : Nat
  crumbBody : Option (String × String)
deriving DecidableEq, Repr

/-- The remote server, as an oracle from the index of the outgoing request
(counting every attempt in issue order) to its response. -/
def Server : Type := Nat → HttpResponse

/-- Errors surfaced by `doRequest`/`fetchCrumb` (the Go code returns them
as wrapped `error` strings). -/
inductive ReqError
  | authenticationFailed
  | accessForbidden
  | crumbIssuerStatus (status : Nat)
  | crumbDecodeError
  | fuelExhausted
deriving DecidableEq, Repr

deriving instance DecidableEq for Except

/-- Result of a `doRequest` call: the returned response or error, the
client state afterwards, the list of requests actually sent on the wire
(in order), and the number of crumb-negotiation attempts (`fetchCrumb`
invocations) performed. -/
structure DoResult where
  result : Except ReqError HttpResponse
  state : ClientState
  trace : List HttpRequest
  negotiations : Nat
deriving DecidableEq, Repr

/-- Result of a `fetchCrumb` call (the Go function returns only `error`;
state, trace and negotiation count are threaded explicitly here). -/
structure FetchResult where
  result : Except ReqError Unit
  state : ClientState
  trace : List HttpRequest
  negotiations : Nat
deriving DecidableEq, Repr

/-- Request assembly in `doRequest` (client.go:134-153): basic auth is
implicit; the crumb header is attached only for non-GET methods and only
when both cached crumb fields are non-empty. -/
def mkRequest (st : ClientState) (m : Method) (p : String) : HttpRequest :=
  { method := m
    path := p
    crumbHeader :=
      if m ≠ Method.get ∧ st.crumb ≠ "" ∧ st.crumbField ≠ "" then
        some (st.crumbField, st.crumb)
      else none }

def crumbIssuerPath : String := "/crumbIssuer/api/json"

/-- Post-processing of `fetchCrumb` (client.go:199-236) applied to the
result of its inner GET: stores the decoded crumb on a 200 response with a
decodable body, otherwise reports the failure.  The `crumbTested := true`
write happens before the GET and is part of `doRequest`'s call site /
`fetchCrumb` below.  Every `fetchCrumb` invocation counts as one
negotiation attempt, hence the `+ 1`. -/
def fetchCrumbPost (r : DoResult) : FetchResult :=
  match r.result with
  | .error e =>
      { result := .error e, state := r.state, trace := r.trace
        negotiations := r.negotiations + 1 }
  | .ok resp =>
      if resp.status ≠ 200 then
        { result := .error (.crumbIssuerStatus resp.status), state := r.state
          trace := r.trace, negotiations := r.negotiations + 1 }
      else
        match resp.crumbBody with
        | none =>
            { result := .error .crumbDecodeError, state := r.state
              trace := r.trace, negotiations := r.negotiations + 1 }
        | some cb =>
            { result := .ok ()
              state := { r.state with crumb := cb.1, crumbField := cb.2 }
              trace := r.trace, negotiations := r.negotiations + 1 }

/-- The `doRequest` (client.go:110-197).  `k` is the index of the next
outgoing request (the oracle's argument).  On 401 the call fails
immediately; on 403 for a non-GET with `crumbTested` still false it runs
`fetchCrumb` (which first sets `crumbTested := true`, then issues one GET
to the crumb issuer) and, on success, retries the original request once;
any other status is returned to the caller.  The fuel bounds the recursion
depth of the Go self-call. -/
def doRequest : Nat → Server → ClientState → Nat → Method → String → DoResult
  | 0, _, st, _, _, _ =>
      { result := .error .fuelExhausted, state := st, trace := [], negotiations := 0 }
  | fuel + 1, srv, st, k, m, p =>
      let req := mkRequest st m p
      let resp := srv k
      if resp.status = 401 then
        { result := .error .authenticationFailed, state := st, trace := [req]
          negotiations := 0 }
      else if resp.status = 403 then
        if st.crumbTested = false ∧ m ≠ Method.get then
          let fc := fetchCrumbPost
            (doRequest fuel srv { st with crumbTested := true } (k + 1)
              Method.get crumbIssuerPath)
          match fc.result with
          | .ok _ =>
              let retry := doRequest fuel srv fc.state (k + 1 + fc.trace.length) m p
              { result := retry.result, state := retry.state
                trace := req :: fc.trace ++ retry.trace
                negotiations := fc.negotiations + retry.negotiations }
          | .error _ =>
              { result := .error .accessForbidden, state := fc.state
                trace := req :: fc.trace, negotiations := fc.negotiations }
        else
          { result := .error .accessForbidden, state := st, trace := [req]
            negotiations := 0 }
      else
        { result := .ok resp, state := st, trace := [req], negotiations := 0 }

/-- The `fetchCrumb` (client.go:199-236): sets `crumbTested := true` (under the
write lock), issues one GET to the crumb issuer, and caches the crumb on a
decodable 200 response. -/
def fetchCrumb (fuel : Nat) (srv : Server) (st : ClientState) (k : Nat) : FetchResult :=
  fetchCrumbPost (doRequest fuel srv { st with crumbTested := true } k Method.get crumbIssuerPath)

/-- A sequence of client calls over one client lifetime: runs `doRequest`
for each (method, path) in order, threading the client state and the
request counter; returns the final state, the final counter and the total
number of crumb-negotiation attempts. -/
def runRequests (fuel : Nat) (srv : Server) :
    ClientState → Nat → List (Method × String) → ClientState × Nat × Nat
  | st, k, [] => (st, k, 0)
  | st, k, (m, p) :: rest =>
      let r := doRequest fuel srv st k m p
      let rec' := runRequests fuel srv r.state (k + r.trace.length) rest
      (rec'.1, rec'.2.1, r.negotiations + rec'.2.2)

/-! ## Job path encoding (client.go:288-302 and Go's net/url) -/

/-- Byte-level escaping decision of Go's `url.PathEscape`
(`shouldEscape(c, encodePathSegment)` in net/url): alphanumerics and
`- _ . ~` are kept; of the RFC 3986 sub-delims `$ & + , / : ; = ? @` only
`/ ; , ?` are escaped; every other byte is escaped. -/
def shouldEscapePathSegment (c : Nat) : Bool :=
  if (97 ≤ c && c ≤ 122) || (65 ≤ c && c ≤ 90) || (48 ≤ c && c ≤ 57) then
    false
  else if c = 45 || c = 95 || c = 46 || c = 126 then
    false
  else if c = 36 || c = 38 || c = 43 || c = 44 || c = 47 || c = 58 ||
          c = 59 || c = 61 || c = 63 || c = 64 then
    c = 47 || c = 59 || c = 44 || c = 63
  else
    true

/-- Uppercase hexadecimal digit, as used by net/url's `escape`. -/
def upperHexDigit (n : Nat) : Char :=
  if n < 10 then Char.ofNat (48 + n) else Char.ofNat (55 + n)

/-- Escape one byte: `%XX` when it must be escaped, the byte itself
otherwise (unescaped bytes are always ASCII). -/
def escapeByte (b : Nat) : String :=
  if shouldEscapePathSegment b then
    "%" ++ String.singleton (upperHexDigit (b / 16)) ++ String.singleton (upperHexDigit (b % 16))
  else
    String.singleton (Char.ofNat b)

/-- UTF-8 encoding of one character, as the list of its byte values
(Go strings are byte strings; `url.PathEscape` operates on bytes). -/
def utf8Bytes (c : Char) : List Nat :=
  let v := c.toNat
  if v < 128 then [v]
  else if v < 2048 then
    [192 ||| (v >>> 6), 128 ||| (v &&& 63)]
  else if v < 65536 then
    [224 ||| (v >>> 12), 128 ||| ((v >>> 6) &&& 63), 128 ||| (v &&& 63)]
  else
    [240 ||| (v >>> 18), 128 ||| ((v >>> 12) &&& 63), 128 ||| ((v >>> 6) &&& 63),
     128 ||| (v &&& 63)]

/-- Go's `url.PathEscape`: percent-escapes a string so it can be placed
inside a URL path segment. -/
def pathEscape (s : String) : String :=
  String.join (((s.data.map utf8Bytes).flatten).map escapeByte)

def splitOnSlashAux : List Char → List (List Char)
  | [] => [[]]
  | c :: rest =>
      let r := splitOnSlashAux rest
      if c = '/' then [] :: r
      else
        match r with
        | h :: t => (c :: h) :: t
        | [] => [[c]]

/-- Go's `strings.Split(s, "/")`: the substrings between the slashes
(adjacent, leading and trailing slashes produce empty segments). -/
def splitOnSlash (s : String) : List String :=
  (splitOnSlashAux s.data).map String.mk

/-- The `encodeJobPath` (client.go:293-302): split the job name on `/`, escape
each part, and join the escaped parts with `/job/`. -/
def encodeJobPath (jobName : String) : String :=
  let parts := splitOnSlash jobName
  let encoded := parts.map pathEscape
  String.intercalate "/job/" encoded

/-- The spec's formula for the same encoding, written exactly as the spec
words it: `join(map(PathEscape, split(s, "/")), "/job/")`. -/
def encodeJobPathSpec (s : String) : String :=
  String.intercalate "/job/" ((splitOnSlash s).map pathEscape)

/-! ## Auto-refresh interval selection (internal/app/model.go:72-103) -/

/-- Two's-complement wraparound to a signed 64-bit value, as performed by
Go's `int64` arithmetic. -/
def wrapInt64 (n : Int) : Int :=
  (n + 2 ^ 63) % 2 ^ 64 - 2 ^ 63

def nsPerSecond : Int := 1000000000

/-- Interval selection in `NewModel` (model.go:78-82):
`refreshInterval := time.Duration(cfg.Profile.AutoRefreshSeconds) * time.Second`
(an `int64` nanosecond count, so the product wraps around), replaced by 10
seconds when it is below 5 seconds.  The result is in nanoseconds. -/
def newModelRefreshInterval (autoRefreshSeconds : Int) : Int :=
  let refreshInterval := wrapInt64 (autoRefreshSeconds * nsPerSecond)
  if refreshInterval < 5 * nsPerSecond then 10 * nsPerSecond else refreshInterval

/-! ## Jenkins data model (internal/jenkins/models)

Only the fields that the embedded code reads or writes are carried;
metadata fields that none of the verified code paths touch (icon URLs,
monitor data, build actions, …) are omitted. -/

structure RootInfo where
  mode : String
  nodeName : String
  numExecutors : Int
  description : String
  useCrumbs : Bool
  useSecurity : Bool
deriving DecidableEq, Repr, Inhabited

structure JobRef where
  name : String
deriving DecidableEq, Repr, Inhabited

/-- A Jenkins view (`models.View`). -/
structure View where
  name : String
  url : String
  description : String
  jobs : List JobRef
deriving DecidableEq, Repr, Inhabited

structure HealthReport where
  description : String
  score : Int
deriving DecidableEq, Repr, Inhabited

/-- A reference to a build (`models.BuildRef`); timestamps and durations
are in milliseconds, as in the Jenkins API. -/
structure BuildRef where
  number : Int
  result : String
  timestamp : Int
  duration : Int
  url : String
  building : Bool
deriving DecidableEq, Repr, Inhabited

/-- A Jenkins job (`models.Job`); `lastBuild` is a nil-able pointer in Go. -/
structure Job where
  name : String
  url : String
  color : String
  lastBuild : Option BuildRef
  healthReport : List HealthReport
deriving DecidableEq, Repr, Inhabited

/-- Detailed job information (`models.JobDetail`). -/
structure JobDetail where
  name : String
  url : String
  color : String
  description : String
  buildable : Bool
  inQueue : Bool
  lastBuild : Option BuildRef
  healthReport : List HealthReport
  builds : List BuildRef
deriving DecidableEq, Repr, Inhabited

/-- Detailed build information (`models.Build`). -/
structure Build where
  number : Int
  result : String
  timestamp : Int
  duration : Int
  estimatedDuration : Int
  url : String
  building : Bool
  displayName : String
  description : String
deriving DecidableEq, Repr, Inhabited

/-- A pipeline stage (`models.Stage`). -/
structure Stage where
  id : String
  name : String
  status : String
  startTimeMillis : Int
  durationMillis : Int
deriving DecidableEq, Repr, Inhabited

/-- A pipeline run (`models.PipelineRun`). -/
structure PipelineRun where
  id : String
  name : String
  status : String
  result : String
  stages : List Stage
deriving DecidableEq, Repr, Inhabited

structure TaskRef where
  name : String
  url : String
  color : String
deriving DecidableEq, Repr, Inhabited

structure QueueItem where
  id : Int
  task : TaskRef
  why : String
  inQueueSince : Int
  buildable : Bool
  blocked : Bool
  stuck : Bool
deriving DecidableEq, Repr, Inhabited

/-- The build queue (`models.Queue`). -/
structure Queue where
  items : List QueueItem
deriving DecidableEq, Repr, Inhabited

/-- A reference to the executable currently running on an executor
(`models.ExecutableRef`). -/
structure ExecutableRef where
  url : String
  number : Int
  displayName : String
  fullDisplayName : String
  timestamp : Int
  estimatedDuration : Int
deriving DecidableEq, Repr, Inhabited

structure Executor where
  currentExecutable : ExecutableRef
  idle : Bool
  progress : Int
deriving DecidableEq, Repr, Inhabited

/-- A Jenkins node/agent (`models.Node`). -/
structure Node where
  displayName : String
  offline : Bool
  numExecutors : Int
  executors : List Executor
  idle : Bool
deriving DecidableEq, Repr, Inhabited

/-- The `isAnimatedColor` (models): a `*_anime` ball color means the job is
currently building. -/
def isAnimatedColor (color : String) : Bool :=
  color = "blue_anime" || color = "red_anime" || color = "yellow_anime" ||
  color = "grey_anime" || color = "aborted_anime" || color = "notbuilt_anime"

/-- The `Job.IsRunning` (models). -/
def Job.isRunning (j : Job) : Bool :=
  isAnimatedColor j.color

/-- Sort key of `SortJobsByLastBuild`: the last build's timestamp, 0 when
there is no last build. -/
def jobLastBuildKey (j : Job) : Int :=
  match j.lastBuild with
  | some lb => lb.timestamp
  | none => 0

def insertJobDesc (j : Job) : List Job → List Job
  | [] => [j]
  | x :: xs =>
      if jobLastBuildKey x < jobLastBuildKey j then j :: x :: xs
      else x :: insertJobDesc j xs

/-- The `SortJobsByLastBuild` (models): sort jobs by last-build timestamp,
most recent first.  The Go code uses `sort.Slice` (an unstable sort with
the same ordering key); it is modelled as a deterministic insertion sort. -/
def sortJobsByLastBuild (jobs : List Job) : List Job :=
  jobs.foldr insertJobDesc []

def insertBuildDesc (b : BuildRef) : List BuildRef → List BuildRef
  | [] => [b]
  | x :: xs =>
      if x.number < b.number then b :: x :: xs
      else x :: insertBuildDesc b xs

/-- The `SortBuildsByNumber` (models): sort builds by number, most recent
first (same modelling note as `sortJobsByLastBuild`). -/
def sortBuildsByNumber (builds : List BuildRef) : List BuildRef :=
  builds.foldr insertBuildDesc []

/-- The `ExecutableRef.GetProgress` (models): progress percentage derived from
elapsed wall time since the build's start.  `now` is the current time in
Unix milliseconds (the Go code calls `time.Since`). -/
def ExecutableRef.getProgress (now : Int) (e : ExecutableRef) : Int :=
  if e.estimatedDuration = 0 ∨ e.timestamp = 0 then 0
  else
    let elapsed := now - e.timestamp
    let progress := Int.tdiv (elapsed * 100) e.estimatedDuration
    if progress > 100 then 100
    else if progress < 0 then 0
    else progress

/-! ## Dashboard tab model (internal/app/setup.go:287-1138)

UI-only components (spinner, lipgloss rendering, width/height) are not part
of the embedded state; `lastUpdate` stores the `now` passed to the merge
(the Go code stores `time.Now()`). -/

inductive DashboardPanel
  | running
  | nodes
  | queue
  | recent
deriving DecidableEq, Repr

/-- The `RunningBuildInfo` (setup.go): the fields assigned by
`extractRunningBuilds` (`StartTime`/`Duration` are never assigned there
and are omitted). -/
structure RunningBuildInfo where
  jobName : String
  buildNum : Int
  nodeName : String
  url : String
  progress : Int
deriving DecidableEq, Repr, Inhabited

/-- The `RecentBuildInfo` (setup.go); `timestamp` keeps the raw Unix
milliseconds of the build (the Go code stores `time.UnixMilli` of it). -/
structure RecentBuildInfo where
  jobName : String
  buildNum : Int
  result : String
  color : String
  timestamp : Int
  duration : Int
  url : String
deriving DecidableEq, Repr, Inhabited

/-- The `DashboardModel` data and selection state. -/
structure DashboardState where
  rootInfo : Option RootInfo
  nodes : List Node
  queue : Option Queue
  runningBuilds : List RunningBuildInfo
  recentBuilds : List RecentBuildInfo
  selectedPanel : DashboardPanel
  selectedRunning : Int
  selectedNode : Int
  selectedQueueItem : Int
  selectedBuild : Int
  loading : Bool
  lastError : Option String
  lastUpdate : Int
deriving DecidableEq, Repr

/-- The `NewDashboardModel` (setup.go:347-360). -/
def initialDashboardState : DashboardState :=
  { rootInfo := none, nodes := [], queue := none, runningBuilds := []
    recentBuilds := [], selectedPanel := .running, selectedRunning := 0
    selectedNode := 0, selectedQueueItem := 0, selectedBuild := 0
    loading := true, lastError := none, lastUpdate := 0 }

/-- The `DashboardDataMsg` (setup.go:1131-1138): each fetch command fills
exactly one payload field (or the error); nil slices/pointers are `none`. -/
structure DashboardDataMsg where
  rootInfo : Option RootInfo
  nodes : Option (List Node)
  queue : Option Queue
  jobs : Option (List Job)
  error : Option String
deriving DecidableEq, Repr

/-- The `extractRunningBuilds` (setup.go:1034-1065): collect, over all nodes
and executors, the running executables, deriving the displayed job name
and the progress. -/
def extractRunningBuilds (now : Int) (nodes : List Node) : List RunningBuildInfo :=
  nodes.foldl (fun acc node =>
    node.executors.foldl (fun acc2 ex =>
      if ex.currentExecutable.url ≠ "" then
        let jobName0 := ex.currentExecutable.fullDisplayName
        let jobName1 := if jobName0 = "" then ex.currentExecutable.displayName else jobName0
        let jobName := if jobName1 = "" then "Unknown" else jobName1
        let progress :=
          if ex.progress = 0 ∧ ex.currentExecutable.estimatedDuration > 0 ∧
              ex.currentExecutable.timestamp > 0 then
            ex.currentExecutable.getProgress now
          else ex.progress
        acc2 ++ [{ jobName := jobName, buildNum := ex.currentExecutable.number
                   nodeName := node.displayName, url := ex.currentExecutable.url
                   progress := progress }]
      else acc2) acc) []

/-- The `processJobs` (setup.go:1067-1093): sort the jobs by last build and
rebuild the recent-builds list from the jobs that have a last build. -/
def processJobs (jobs : List Job) : List RecentBuildInfo :=
  (sortJobsByLastBuild jobs).foldl (fun acc job =>
    match job.lastBuild with
    | some lb =>
        let result0 := lb.result
        let result := if result0 = "" then (if job.isRunning then "RUNNING" else result0) else result0
        acc ++ [{ jobName := job.name, buildNum := lb.number, result := result
                  color := job.color, timestamp := lb.timestamp
                  duration := lb.duration, url := job.url }]
    | none => acc) []

/-- The `DashboardDataMsg` case of `DashboardModel.Update`
(setup.go:381-402): field-wise merge; a `none` payload field leaves the
corresponding state field unchanged. -/
def dashboardMergeData (now : Int) (m0 : DashboardState) (msg : DashboardDataMsg) :
    DashboardState :=
  let m := { m0 with loading := false, lastUpdate := now }
  let m := match msg.rootInfo with
    | some ri => { m with rootInfo := some ri }
    | none => m
  let m := match msg.nodes with
    | some ns => { m with nodes := ns, runningBuilds := extractRunningBuilds now ns }
    | none => m
  let m := match msg.queue with
    | some q => { m with queue := some q }
    | none => m
  let m := match msg.jobs with
    | some js => { m with recentBuilds := processJobs js }
    | none => m
  match msg.error with
  | some e => { m with lastError := some e }
  | none => m

/-! ## Keys, commands and shared UI helpers

`tea.KeyMsg` is modelled by `Key`; `msg.String()` of a plain character key
is that character, so the Go switch cases "j", "r", … are matched as
`Key.char 'j'`, ….  A `tea.Cmd` is modelled as the list of basic effects
it dispatches: `nil` is `[]` and `tea.Batch` is concatenation. -/

inductive Key
  | char (c : Char)
  | esc
  | enter
  | up
  | down
  | pgup
  | pgdown
  | backspace
  | tab
  | shiftTab
deriving DecidableEq, Repr

inductive BaseCmd
  | tick (d : Int)
  | spinnerTick
  | blink
  | fetchRootInfo
  | fetchNodes
  | fetchQueue
  | fetchDashJobs
  | fetchViews
  | fetchViewJobs (viewName : String)
  | fetchViewJobDetail (jobName : String)
  | fetchBuildsJobs
deriving DecidableEq, Repr

abbrev Cmd := List BaseCmd

/-- The `bubbles` text input, reduced to its value with the cursor at the
end: typing a character appends it, backspace deletes the last character,
and other keys leave the value unchanged. -/
def textInputUpdate (value : String) : Key → String
  | .char c => value.push c
  | .backspace => String.mk value.data.dropLast
  | _ => value

def charListPrefix : List Char → List Char → Bool
  | [], _ => true
  | _ :: _, [] => false
  | a :: as, b :: bs => a == b && charListPrefix as bs

def charListContains (sub : List Char) : List Char → Bool
  | [] => charListPrefix sub []
  | c :: rest => charListPrefix sub (c :: rest) || charListContains sub rest

/-- Go's `strings.Contains` at character level. -/
def strContains (s sub : String) : Bool :=
  charListContains sub.data s.data

/-- Go's `strings.ToLower` at character level (character-wise lowering;
coincides with Go on ASCII). -/
def lowerStr (s : String) : String :=
  String.mk (s.data.map Char.toLower)

/-- Go slice indexing `l[i]`: `none` models the runtime panic
`index out of range` raised when `i < 0` or `i ≥ len(l)`. -/
def goIndex (l : List α) (i : Int) : Option α :=
  if i < 0 ∨ (l.length : Int) ≤ i then none else l.get? i.toNat

/-! ## Views tab model (internal/app/views.go) -/

inductive ViewsMode
  | list
  | jobs
  | jobDetail
deriving DecidableEq, Repr

/-- The immediately-enclosing mode, one level up in the views tab's
list → jobs → job-detail hierarchy (the root is its own parent). -/
def ViewsMode.parent : ViewsMode → ViewsMode
  | .list => .list
  | .jobs => .list
  | .jobDetail => .jobs

/-- The `ViewsModel` data, selection and search state (views.go:30-59); the
spinner and rendering dimensions beyond `width`/`height` are UI-only.
`searchValue` is the text input's value. -/
structure ViewsState where
  width : Int
  height : Int
  mode : ViewsMode
  views : List View
  selectedView : Int
  jobs : List Job
  selectedJob : Int
  jobDetail : Option JobDetail
  searchValue : String
  searching : Bool
  filter : String
  viewsScroll : Int
  jobsScroll : Int
  loading : Bool
  lastError : Option String
  lastUpdate : Int
deriving DecidableEq, Repr

/-- The `NewViewsModel` (views.go:62-81). -/
def initialViewsState (width height : Int) : ViewsState :=
  { width := width, height := height, mode := .list, views := []
    selectedView := 0, jobs := [], selectedJob := 0, jobDetail := none
    searchValue := "", searching := false, filter := "", viewsScroll := 0
    jobsScroll := 0, loading := true, lastError := none, lastUpdate := 0 }

/-- The `ViewsDataMsg` (views.go:808-814). -/
structure ViewsDataMsg where
  views : Option (List View)
  jobs : Option (List Job)
  jobDetail : Option JobDetail
  error : Option String
deriving DecidableEq, Repr

inductive ViewsMsg
  | data (d : ViewsDataMsg)
  | key (k : Key)
deriving DecidableEq, Repr

/-- The `getFilteredViews` (views.go:663-676). -/
def getFilteredViews (m : ViewsState) : List View :=
  if m.filter = "" then m.views
  else m.views.filter (fun v => strContains (lowerStr v.name) (lowerStr m.filter))

/-- The `getFilteredJobs` (views.go:678-691). -/
def getFilteredJobs (m : ViewsState) : List Job :=
  if m.filter = "" then m.jobs
  else m.jobs.filter (fun j => strContains (lowerStr j.name) (lowerStr m.filter))

/-- The `navigateDown` (views.go:693-716). -/
def viewsNavigateDown (m : ViewsState) : ViewsState :=
  match m.mode with
  | .list =>
      let filtered := getFilteredViews m
      if m.selectedView < (filtered.length : Int) - 1 then
        let m := { m with selectedView := m.selectedView + 1 }
        let listHeight := m.height - 12
        if m.selectedView ≥ m.viewsScroll + listHeight then
          { m with viewsScroll := m.selectedView - listHeight + 1 }
        else m
      else m
  | .jobs =>
      let filtered := getFilteredJobs m
      if m.selectedJob < (filtered.length : Int) - 1 then
        let m := { m with selectedJob := m.selectedJob + 1 }
        let listHeight := m.height - 14
        if m.selectedJob ≥ m.jobsScroll + listHeight then
          { m with jobsScroll := m.selectedJob - listHeight + 1 }
        else m
      else m
  | .jobDetail => m

/-- The `navigateUp` (views.go:718-737). -/
def viewsNavigateUp (m : ViewsState) : ViewsState :=
  match m.mode with
  | .list =>
      if m.selectedView > 0 then
        let m := { m with selectedView := m.selectedView - 1 }
        if m.selectedView < m.viewsScroll then { m with viewsScroll := m.selectedView }
        else m
      else m
  | .jobs =>
      if m.selectedJob > 0 then
        let m := { m with selectedJob := m.selectedJob - 1 }
        if m.selectedJob < m.jobsScroll then { m with jobsScroll := m.selectedJob }
        else m
      else m
  | .jobDetail => m

/-- The `pageDown` (views.go:739-759). -/
def viewsPageDown (m : ViewsState) : ViewsState :=
  let pageSize := Int.tdiv m.height 3
  match m.mode with
  | .list =>
      let filtered := getFilteredViews m
      let m := { m with selectedView := min (m.selectedView + pageSize) ((filtered.length : Int) - 1) }
      let listHeight := m.height - 12
      if m.selectedView ≥ m.viewsScroll + listHeight then
        { m with viewsScroll := m.selectedView - listHeight + 1 }
      else m
  | .jobs =>
      let filtered := getFilteredJobs m
      let m := { m with selectedJob := min (m.selectedJob + pageSize) ((filtered.length : Int) - 1) }
      let listHeight := m.height - 14
      if m.selectedJob ≥ m.jobsScroll + listHeight then
        { m with jobsScroll := m.selectedJob - listHeight + 1 }
      else m
  | .jobDetail => m

/-- The `pageUp` (views.go:761-777). -/
def viewsPageUp (m : ViewsState) : ViewsState :=
  let pageSize := Int.tdiv m.height 3
  match m.mode with
  | .list =>
      let m := { m with selectedView := max (m.selectedView - pageSize) 0 }
      if m.selectedView < m.viewsScroll then { m with viewsScroll := m.selectedView }
      else m
  | .jobs =>
      let m := { m with selectedJob := max (m.selectedJob - pageSize) 0 }
      if m.selectedJob < m.jobsScroll then { m with jobsScroll := m.selectedJob }
      else m
  | .jobDetail => m

/-- The `LoadData` (views.go:90-96): marks the model loading and dispatches
the views fetch (plus the spinner tick). -/
def viewsLoadData (m : ViewsState) : ViewsState × Cmd :=
  ({ m with loading := true }, [.fetchViews, .spinnerTick])

/-- The `fetchViewJobs` (views.go:788-796). -/
def viewsFetchViewJobs (m : ViewsState) (viewName : String) : ViewsState × Cmd :=
  ({ m with loading := true }, [.fetchViewJobs viewName])

/-- The `fetchJobDetail` (views.go:798-806). -/
def viewsFetchJobDetail (m : ViewsState) (jobName : String) : ViewsState × Cmd :=
  ({ m with loading := true }, [.fetchViewJobDetail jobName])

/-- The `ViewsDataMsg` case of `ViewsModel.Update` (views.go:103-120):
field-wise merge; arriving jobs are sorted by last build. -/
def viewsMergeData (now : Int) (m0 : ViewsState) (msg : ViewsDataMsg) : ViewsState :=
  let m := { m0 with loading := false, lastUpdate := now }
  let m := match msg.views with
    | some vs => { m with views := vs }
    | none => m
  let m := match msg.jobs with
    | some js => { m with jobs := sortJobsByLastBuild js }
    | none => m
  let m := match msg.jobDetail with
    | some jd => { m with jobDetail := some jd }
    | none => m
  match msg.error with
  | some e => { m with lastError := some e }
  | none => m

/-- The search-input branch of `ViewsModel.Update`'s key handling
(views.go:130-149), taken while `searching` is set. -/
def viewsSearchKey (m : ViewsState) (k : Key) : ViewsState × Cmd :=
  match k with
  | .esc => ({ m with searching := false, filter := "", searchValue := "" }, [])
  | .enter => ({ m with searching := false, filter := m.searchValue }, [])
  | _ =>
      let v := textInputUpdate m.searchValue k
      ({ m with searchValue := v, filter := v }, [])

/-- The `esc` case of the main key switch (views.go:157-168). -/
def viewsEscKey (m : ViewsState) : ViewsState × Cmd :=
  match m.mode with
  | .jobDetail => ({ m with mode := .jobs, jobDetail := none }, [])
  | .jobs => ({ m with mode := .list, jobs := [], selectedJob := 0, jobsScroll := 0 }, [])
  | .list => (m, [])

/-- The `enter` case of the main key switch (views.go:170-183). -/
def viewsEnterKey (m : ViewsState) : Option (ViewsState × Cmd) :=
  match m.mode with
  | .list =>
      if (getFilteredViews m).length > 0 then
        let m1 := { m with mode := ViewsMode.jobs }
        match goIndex (getFilteredViews m1) m1.selectedView with
        | some v => some (viewsFetchViewJobs m1 v.name)
        | none => none
      else some (m, [])
  | .jobs =>
      let filteredJobs := getFilteredJobs m
      if filteredJobs.length > 0 ∧ m.selectedJob < (filteredJobs.length : Int) then
        let m1 := { m with mode := ViewsMode.jobDetail }
        match goIndex filteredJobs m1.selectedJob with
        | some j => some (viewsFetchJobDetail m1 j.name)
        | none => none
      else some (m, [])
  | .jobDetail => some (m, [])

/-- The `o` (open in browser) case (views.go:185-207); `browser.Open` is
an external effect with no model impact, but the URL lookup can panic. -/
def viewsOpenKey (m : ViewsState) : Option (ViewsState × Cmd) :=
  match m.mode with
  | .list =>
      let filtered := getFilteredViews m
      if filtered.length > 0 ∧ m.selectedView < (filtered.length : Int) then
        match goIndex filtered m.selectedView with
        | some _ => some (m, [])
        | none => none
      else some (m, [])
  | .jobs =>
      let filtered := getFilteredJobs m
      if filtered.length > 0 ∧ m.selectedJob < (filtered.length : Int) then
        match goIndex filtered m.selectedJob with
        | some _ => some (m, [])
        | none => none
      else some (m, [])
  | .jobDetail => some (m, [])

/-- The `r` (refresh) case (views.go:209-214): in jobs mode the code
indexes the full `views` slice with `selectedView` without a bounds
check. -/
def viewsRefreshKey (m : ViewsState) : Option (ViewsState × Cmd) :=
  if m.mode = ViewsMode.list then some (viewsLoadData m)
  else if m.mode = ViewsMode.jobs then
    match goIndex m.views m.selectedView with
    | some v => some (viewsFetchViewJobs m v.name)
    | none => none
  else some (m, [])

/-- The `G` (go to bottom) case (views.go:229-242). -/
def viewsBottomKey (m : ViewsState) : ViewsState :=
  match m.mode with
  | .list =>
      let filtered := getFilteredViews m
      if filtered.length > 0 then { m with selectedView := (filtered.length : Int) - 1 }
      else m
  | .jobs =>
      let filtered := getFilteredJobs m
      if filtered.length > 0 then { m with selectedJob := (filtered.length : Int) - 1 }
      else m
  | .jobDetail => m

/-- The character cases of the main key switch, dispatched on the key's
string as in the Go `switch msg.String()`. -/
def viewsCharKey (m : ViewsState) (c : Char) : Option (ViewsState × Cmd) :=
  if c = '/' then some ({ m with searching := true }, [.blink])
  else if c = 'o' then viewsOpenKey m
  else if c = 'r' then viewsRefreshKey m
  else if c = 'j' then some (viewsNavigateDown m, [])
  else if c = 'k' then some (viewsNavigateUp m, [])
  else if c = 'g' then
    some ({ m with selectedView := 0, selectedJob := 0, viewsScroll := 0, jobsScroll := 0 }, [])
  else if c = 'G' then some (viewsBottomKey m, [])
  else some (m, [])

/-- The `ViewsModel.Update` (views.go:99-259).  The result is `none` exactly
when the Go code would panic with an index out of range; otherwise it is
the updated state together with the dispatched command.  The spinner
branch is UI-only and omitted. -/
def viewsUpdate (now : Int) (m : ViewsState) : ViewsMsg → Option (ViewsState × Cmd)
  | .data d => some (viewsMergeData now m d, [])
  | .key k =>
      if m.searching then some (viewsSearchKey m k)
      else
        match k with
        | .esc => some (viewsEscKey m)
        | .enter => viewsEnterKey m
        | .down => some (viewsNavigateDown m, [])
        | .up => some (viewsNavigateUp m, [])
        | .pgdown => some (viewsPageDown m, [])
        | .pgup => some (viewsPageUp m, [])
        | .backspace =>
            if m.filter ≠ "" then some ({ m with filter := "", searchValue := "" }, [])
            else some (m, [])
        | .char c => viewsCharKey m c
        | _ => some (m, [])

/-- Run a sequence of messages through `ViewsModel.Update`, stopping with
`none` at the first panic. -/
def viewsRun (now : Int) (s : ViewsState) (msgs : List ViewsMsg) : Option ViewsState :=
  msgs.foldlM (fun st msg => (viewsUpdate now st msg).map Prod.fst) s

/-! ## Builds tab model (builds tab file)

The claims touch the `BuildsDataMsg` merge and the `esc` key branch of
`BuildsModel.Update`; those two branches are embedded.  Viewport,
paginator and spinner are UI components and are not part of the state;
`searchValue`/`logSearchValue` are the two text inputs' values. -/

inductive BuildsMode
  | jobList
  | buildList
  | buildDetail
  | stageLogView
  | logView
deriving DecidableEq, Repr

/-- The immediately-enclosing mode, one level up in the builds tab's
job-list → build-list → build-detail → log hierarchy (both log views sit
directly above the build detail; the root is its own parent). -/
def BuildsMode.parent : BuildsMode → BuildsMode
  | .jobList => .jobList
  | .buildList => .jobList
  | .buildDetail => .buildList
  | .stageLogView => .buildDetail
  | .logView => .buildDetail

structure BuildsState where
  mode : BuildsMode
  jobs : List Job
  selectedJob : Int
  jobDetail : Option JobDetail
  builds : List BuildRef
  selectedBuild : Int
  selectedStage : Int
  buildDetail : Option Build
  pipelineRun : Option PipelineRun
  logContent : String
  searchValue : String
  searching : Bool
  filter : String
  pageSize : Int
  currentPage : Int
  totalBuilds : Int
  followLog : Bool
  logSearchValue : String
  logSearching : Bool
  logFilter : String
  jobsScroll : Int
  buildsScroll : Int
  loading : Bool
  lastError : Option String
  lastUpdate : Int
deriving DecidableEq, Repr

/-- The `NewBuildsModel`. -/
def initialBuildsState : BuildsState :=
  { mode := .jobList, jobs := [], selectedJob := 0, jobDetail := none
    builds := [], selectedBuild := 0, selectedStage := 0, buildDetail := none
    pipelineRun := none, logContent := "", searchValue := "", searching := false
    filter := "", pageSize := 20, currentPage := 0, totalBuilds := 0
    followLog := false, logSearchValue := "", logSearching := false
    logFilter := "", jobsScroll := 0, buildsScroll := 0, loading := true
    lastError := none, lastUpdate := 0 }

/-- The `BuildsDataMsg`. -/
structure BuildsDataMsg where
  jobs : Option (List Job)
  jobDetail : Option JobDetail
  buildDetail : Option Build
  pipelineRun : Option PipelineRun
  logContent : String
  error : Option String
deriving DecidableEq, Repr

/-- The `BuildsDataMsg` case of `BuildsModel.Update`: field-wise merge;
jobs are sorted by last build, a job detail's builds by number (the
paginator page computation and viewport content refresh are UI-only). -/
def buildsMergeData (now : Int) (m0 : BuildsState) (msg : BuildsDataMsg) : BuildsState :=
  let m := { m0 with loading := false, lastUpdate := now }
  let m := match msg.jobs with
    | some js => { m with jobs := sortJobsByLastBuild js }
    | none => m
  let m := match msg.jobDetail with
    | some jd =>
        let sorted := sortBuildsByNumber jd.builds
        { m with jobDetail := some jd, builds := sorted
                 totalBuilds := (sorted.length : Int) }
    | none => m
  let m := match msg.buildDetail with
    | some bd => { m with buildDetail := some bd }
    | none => m
  let m := match msg.pipelineRun with
    | some pr => { m with pipelineRun := some pr }
    | none => m
  let m := if msg.logContent ≠ "" then { m with logContent := msg.logContent } else m
  match msg.error with
  | some e => { m with lastError := some e }
  | none => m

/-- The `esc` key handling of `BuildsModel.Update`, including the search
and log-search guards that precede the main key switch: leaving search
mode clears the filter; leaving log-search mode keeps the log filter;
otherwise `esc` pops exactly one mode level and discards the data owned by
the level being exited. -/
def buildsEscUpdate (m : BuildsState) : BuildsState × Cmd :=
  if m.searching then
    ({ m with searching := false, filter := "", searchValue := "" }, [])
  else if m.logSearching then
    ({ m with logSearching := false }, [])
  else
    match m.mode with
    | .logView =>
        ({ m with mode := .buildDetail, logContent := "", logFilter := "" }, [])
    | .stageLogView =>
        ({ m with mode := .buildDetail, logContent := "", logFilter := "" }, [])
    | .buildDetail =>
        ({ m with mode := .buildList, buildDetail := none, pipelineRun := none }, [])
    | .buildList =>
        ({ m with mode := .jobList, jobDetail := none, builds := []
                  selectedBuild := 0, buildsScroll := 0 }, [])
    | .jobList => (m, [])

/-! ## Application controller (internal/app/model.go) -/

inductive AppState
  | setup
  | loading
  | ready
  | error
deriving DecidableEq, Repr

inductive TabID
  | dashboard
  | views
  | builds
deriving DecidableEq, Repr

/-- The top-level `Model` (model.go:35-70); config, client, spinner and
the setup wizard model are collaborators outside the embedded core. -/
structure AppModel where
  state : AppState
  activeTab : TabID
  width : Int
  height : Int
  lastError : Option String
  dashboardModel : Option DashboardState
  viewsModel : Option ViewsState
  buildsModel : Option BuildsState
  showHelp : Bool
  autoRefreshEnabled : Bool
  autoRefreshInterval : Int
deriving DecidableEq, Repr

/-- The asynchronous messages handled by `Model.Update` that the verified
claims are about (key and window-size messages are handled in other
branches; keys are embedded at the tab level). -/
inductive AsyncMsg
  | viewsData (d : ViewsDataMsg)
  | dashboardData (d : DashboardDataMsg)
  | buildsData (d : BuildsDataMsg)
  | clientError (e : String)
  | autoRefreshTick
deriving DecidableEq, Repr

/-- Whether a message is one of the three per-tab data messages. -/
def AsyncMsg.isTabData : AsyncMsg → Bool
  | .viewsData _ => true
  | .dashboardData _ => true
  | .buildsData _ => true
  | _ => false

/-- The `scheduleAutoRefresh` (model.go:375-382): arm one `tea.Tick` with the
configured interval, or nothing when auto-refresh is disabled or the
interval is not positive. -/
def scheduleAutoRefresh (m : AppModel) : Cmd :=
  if m.autoRefreshEnabled = false ∨ m.autoRefreshInterval ≤ 0 then []
  else [.tick m.autoRefreshInterval]

/-- The `DashboardModel.LoadData` (setup.go:369-378) as the dispatched batch. -/
def dashboardLoadCmds : Cmd :=
  [.fetchRootInfo, .fetchNodes, .fetchQueue, .fetchDashJobs, .spinnerTick]

/-- The `loadTabData` (model.go:321-337): ask the active tab's model to load
(each tab's `LoadData` marks it loading and returns its fetch batch). -/
def loadTabData (m : AppModel) : AppModel × Cmd :=
  match m.activeTab with
  | .dashboard =>
      match m.dashboardModel with
      | some dm =>
          ({ m with dashboardModel := some { dm with loading := true } }, dashboardLoadCmds)
      | none => (m, [])
  | .views =>
      match m.viewsModel with
      | some vm =>
          let r := viewsLoadData vm
          ({ m with viewsModel := some r.1 }, r.2)
      | none => (m, [])
  | .builds =>
      match m.buildsModel with
      | some bm =>
          ({ m with buildsModel := some { bm with loading := true } }, [.fetchBuildsJobs, .spinnerTick])
      | none => (m, [])

/-- The `updateActiveTab` (model.go:339-356): delegate the message to the
active tab's model only.  Each tab model's `Update` is a type switch; an
async message kind it has no case for leaves it unchanged and returns no
command. -/
def updateActiveTab (now : Int) (m : AppModel) (msg : AsyncMsg) : AppModel × Cmd :=
  match m.activeTab with
  | .dashboard =>
      match m.dashboardModel, msg with
      | some dm, .dashboardData d =>
          ({ m with dashboardModel := some (dashboardMergeData now dm d) }, [])
      | _, _ => (m, [])
  | .views =>
      match m.viewsModel, msg with
      | some vm, .viewsData d =>
          ({ m with viewsModel := some (viewsMergeData now vm d) }, [])
      | _, _ => (m, [])
  | .builds =>
      match m.buildsModel, msg with
      | some bm, .buildsData d =>
          ({ m with buildsModel := some (buildsMergeData now bm d) }, [])
      | _, _ => (m, [])

/-- The asynchronous-message part of `Model.Update` (model.go:125-268):
`ClientErrorMsg` records the error and moves to the error state;
`AutoRefreshTickMsg`, when ready and enabled, dispatches the active tab's
load and re-arms the timer in the same batch; the per-tab data messages
fall through the type switch to the state dispatch, which delegates to the
active tab only when the state is `ready`. -/
def appUpdate (now : Int) (m : AppModel) (msg : AsyncMsg) : AppModel × Cmd :=
  match msg with
  | .clientError e => ({ m with lastError := some e, state := .error }, [])
  | .autoRefreshTick =>
      if m.state = AppState.ready ∧ m.autoRefreshEnabled = true then
        let r := loadTabData m
        (r.1, r.2 ++ scheduleAutoRefresh m)
      else (m, [])
  | _ =>
      match m.state with
      | .ready => updateActiveTab now m msg
      | _ => (m, [])

/-! ## Discrete-event semantics of dispatched commands (for the
auto-refresh timing claim)

A command dispatched at time `t` delivers each of its messages at a
computed time: a `tea.Tick d` fires its tick message at `t + d`; a network
fetch command settles (delivers its data message) at `t + work`, where
`work` is how long that fetch takes. -/

def BaseCmd.isFetch : BaseCmd → Bool
  | .tick _ => false
  | .spinnerTick => false
  | .blink => false
  | _ => true

/-- Arrival times of the auto-refresh tick messages produced by a command
dispatched at time `t`. -/
def tickArrivalTimes (t : Int) (c : Cmd) : List Int :=
  c.filterMap (fun b => match b with | .tick d => some (t + d) | _ => none)

/-- Settle times of the fetch work dispatched at time `t` when each fetch
takes `work` time units. -/
def workSettleTimes (t work : Int) (c : Cmd) : List Int :=
  c.filterMap (fun b => if b.isFetch then some (t + work) else none)

/-! ## Concrete instances used by counterexamples and witnesses -/

/-- A server that answers 403 to every request, including the crumb-issuer
GET (spec Scenario C). -/
def srv403 : Server := fun _ => { status := 403, crumbBody := none }

/-- A client state whose crumb negotiation has already run. -/
def testedClientState : ClientState :=
  { crumb := "", crumbField := "", crumbTested := true }

/-- Scenario-B style server: 403 to the first request, then 200 with a
decodable crumb body from the issuer, then 200. -/
def crumbServer (c f : String) : Server := fun k =>
  if k = 0 then { status := 403, crumbBody := none }
  else if k = 1 then { status := 200, crumbBody := some (c, f) }
  else { status := 200, crumbBody := none }

/-- Like `crumbServer`, but the crumb issuer answers 201 (a 2xx status
that is not 200) with a perfectly decodable body. -/
def crumbServer201 : Server := fun k =>
  if k = 0 then { status := 403, crumbBody := none }
  else if k = 1 then { status := 201, crumbBody := some ("abc", "X-Crumb") }
  else { status := 200, crumbBody := none }

def mkView (name : String) : View :=
  { name := name, url := "", description := "", jobs := [] }

/-- Three views for the views-tab scenarios. -/
def threeViews : List View := [mkView "alpha", mkView "beta", mkView "gamma"]

/-- Key/message sequence that drives `ViewsModel.Update` into an
out-of-range index: load three views, move the selection to the third,
filter down to one view ("b" matches only "beta"), confirm the filter,
then press enter on the views list. -/
def c10Msgs : List ViewsMsg :=
  [ .data { views := some threeViews, jobs := none, jobDetail := none, error := none }
  , .key (.char 'j')
  , .key (.char 'j')
  , .key (.char '/')
  , .key (.char 'b')
  , .key .enter
  , .key .enter ]

/-- A ready application model with the dashboard tab active and all three
tab models initialized. -/
def readyOnDashboard : AppModel :=
  { state := .ready, activeTab := .dashboard, width := 80, height := 40
    lastError := none
    dashboardModel := some initialDashboardState
    viewsModel := some (initialViewsState 80 40)
    buildsModel := some initialBuildsState
    showHelp := false, autoRefreshEnabled := true, autoRefreshInterval := 10 }

/-- The same model with the views tab active. -/
def readyOnViews : AppModel :=
  { readyOnDashboard with activeTab := .views }

/-- A views-data message carrying one view. -/
def oneViewMsg : ViewsDataMsg :=
  { views := some [mkView "alpha"], jobs := none, jobDetail := none, error := none }

/-- A dashboard-data message carrying only an error. -/
def dashErrorMsg : DashboardDataMsg :=
  { rootInfo := none, nodes := none, queue := none, jobs := none, error := some "boom" }

-- Concrete dashboard payloads for the merge-commutativity witness.
def wRootInfo : RootInfo :=
  { mode := "NORMAL", nodeName := "", numExecutors := 2, description := ""
    useCrumbs := true, useSecurity := true }

def wNode : Node :=
  { displayName := "built-in", offline := false, numExecutors := 2
    executors := [{ currentExecutable := { url := "u", number := 7, displayName := "#7"
                                           fullDisplayName := "job #7", timestamp := 0
                                           estimatedDuration := 0 }
                    idle := false, progress := 40 }]
    idle := false }

def wQueue : Queue :=
  { items := [{ id := 1, task := { name := "q", url := "", color := "" }, why := ""
                inQueueSince := 5, buildable := true, blocked := false, stuck := false }] }

def wJob : Job :=
  { name := "j1", url := "ju", color := "blue"
    lastBuild := some { number := 3, result := "SUCCESS", timestamp := 9
                        duration := 4, url := "bu", building := false }
    healthReport := [] }

def wRootMsg : DashboardDataMsg :=
  { rootInfo := some wRootInfo, nodes := none, queue := none, jobs := none, error := none }

def wNodesMsg : DashboardDataMsg :=
  { rootInfo := none, nodes := some [wNode], queue := none, jobs := none, error := none }

def wQueueMsg : DashboardDataMsg :=
  { rootInfo := none, nodes := none, queue := some wQueue, jobs := none, error := none }

def wJobsMsg : DashboardDataMsg :=
  { rootInfo := none, nodes := none, queue := none, jobs := some [wJob], error := none }

/-- A views state sitting in the job-detail mode with data at every level. -/
def viewsInDetail : ViewsState :=
  { initialViewsState 80 40 with
      mode := .jobDetail, views := threeViews, selectedView := 1
      jobs := [wJob], selectedJob := 0
      jobDetail := some { name := "j1", url := "ju", color := "blue", description := ""
                          buildable := true, inQueue := false, lastBuild := none
                          healthReport := [], builds := [] }
      loading := false }

/-- A builds state sitting in the build-list mode with data loaded. -/
def buildsInList : BuildsState :=
  { initialBuildsState with
      mode := .buildList, jobs := [wJob], selectedJob := 0
      jobDetail := some { name := "j1", url := "ju", color := "blue", description := ""
                          buildable := true, inQueue := false, lastBuild := none
                          healthReport := [], builds := [] }
      builds := [{ number := 3, result := "SUCCESS", timestamp := 9, duration := 4
                   url := "bu", building := false }]
      selectedBuild := 0, loading := false }

/-! # Theorems -/

/-! ## C8: job path encoding -/

/-- Claim C8: for every hierarchical (folder-nested) item name, the client
builds the item's URL path by splitting the name on "/", percent-escaping
each segment individually, and re-joining the escaped segments with the
fixed separator token "/job/": `encodeJobPath(s) =
join(map(PathEscape, split(s, "/")), "/job/")`. -/
theorem c8_encode_job_path (s : String) : encodeJobPath s = encodeJobPathSpec s := rfl

/-- The embedded `pathEscape`/`encodeJobPath` agree with the repository's
own `TestEncodeJobPath` vectors. -/
theorem encodeJobPath_matches_repo_tests :
    encodeJobPath "simple-job" = "simple-job"
    ∧ encodeJobPath "folder/job" = "folder/job/job"
    ∧ encodeJobPath "my folder/my job" = "my%20folder/job/my%20job" :=
  ⟨by decide, by decide, by decide⟩

/-! ## C9: auto-refresh interval floor -/

/-- Claim C9 (amended): the effective auto-refresh interval chosen by
`NewModel` is always at least 5 seconds; any configured value in `[0, 5)`
seconds (in particular zero) is replaced by 10 seconds; a configured value
in `[5, 9223372036]` seconds is used unchanged.  (Beyond that, the
nanosecond product overflows `int64` — see the counterexample — and
negative seconds values are compared after wraparound.) -/
theorem c9_interval_floor (s : Int) :
    5 * nsPerSecond ≤ newModelRefreshInterval s
    ∧ (0 ≤ s → s < 5 → newModelRefreshInterval s = 10 * nsPerSecond)
    ∧ (5 ≤ s → s ≤ 9223372036 → newModelRefreshInterval s = s * nsPerSecond) := by
  have e63 : (2 : Int) ^ 63 = 9223372036854775808 := by norm_num
  have e64 : (2 : Int) ^ 64 = 18446744073709551616 := by norm_num
  refine ⟨?_, ?_, ?_⟩
  · simp only [newModelRefreshInterval, wrapInt64, nsPerSecond, e63, e64]
    split_ifs <;> omega
  · intro h0 h5
    have hw : (s * 1000000000 + 9223372036854775808) % 18446744073709551616
        = s * 1000000000 + 9223372036854775808 :=
      Int.emod_eq_of_lt (by omega) (by omega)
    simp only [newModelRefreshInterval, wrapInt64, nsPerSecond, e63, e64, hw]
    split_ifs <;> omega
  · intro h5 hbig
    have hw : (s * 1000000000 + 9223372036854775808) % 18446744073709551616
        = s * 1000000000 + 9223372036854775808 :=
      Int.emod_eq_of_lt (by omega) (by omega)
    simp only [newModelRefreshInterval, wrapInt64, nsPerSecond, e63, e64, hw]
    split_ifs <;> omega

/-- Claim C9, counterexample to the claim as stated: 9223372037 seconds is
not shorter than 5 seconds, yet `NewModel` does not use it unchanged — the
`int64` nanosecond product wraps around to a negative duration and the
interval falls back to 10 seconds. -/
theorem c9_counterexample :
    (5 : Int) ≤ 9223372037
    ∧ newModelRefreshInterval 9223372037 = 10 * nsPerSecond
    ∧ newModelRefreshInterval 9223372037 ≠ 9223372037 * nsPerSecond := by
  refine ⟨by norm_num, by decide, by decide⟩

/-- Witness for `c9_interval_floor` at the concrete inputs 3 and 7. -/
theorem c9_interval_floor_witness :
    ((0 : Int) ≤ 3 ∧ (3 : Int) < 5 ∧ newModelRefreshInterval 3 = 10 * nsPerSecond)
    ∧ ((5 : Int) ≤ 7 ∧ (7 : Int) ≤ 9223372036 ∧ newModelRefreshInterval 7 = 7 * nsPerSecond) :=
  ⟨⟨by norm_num, by norm_num, (c9_interval_floor 3).2.1 (by norm_num) (by norm_num)⟩,
   ⟨by norm_num, by norm_num, (c9_interval_floor 7).2.2 (by norm_num) (by norm_num)⟩⟩

/-! ## C10: views tab index safety -/

/-- Claim C10 is false on the code: after loading three views, moving the
selection to index 2, and narrowing the search filter to a single view,
pressing enter makes the handler evaluate `getFilteredViews()[2]` on a
1-element slice — an index out of range (`viewsRun` = `none` models the Go
panic).  The second conjunct records the state just before the last
keypress: list mode, not searching, `selectedView = 2`, one filtered view. -/
theorem c10_enter_out_of_range :
    viewsRun 0 (initialViewsState 80 40) c10Msgs = none
    ∧ (viewsRun 0 (initialViewsState 80 40) (c10Msgs.take 6)).map
        (fun s => (s.mode, s.searching, s.selectedView, ((getFilteredViews s).length : Int)))
        = some (ViewsMode.list, false, 2, 1) :=
  ⟨by decide, by decide⟩

/-! ## C1, C2: crumb negotiation -/

/-- A GET request never enters crumb negotiation: the state is unchanged
and no negotiation happens. -/
theorem doRequest_get (fuel : Nat) (srv : Server) (st : ClientState) (k : Nat) (p : String) :
    (doRequest fuel srv st k Method.get p).state = st
    ∧ (doRequest fuel srv st k Method.get p).negotiations = 0 := by
  cases fuel with
  | zero => exact ⟨rfl, rfl⟩
  | succ fuel =>
      simp only [doRequest]
      split
      · exact ⟨rfl, rfl⟩
      · split
        · rw [if_neg (by simp)]
          exact ⟨rfl, rfl⟩
        · exact ⟨rfl, rfl⟩

/-- Once `crumbTested` is set, `doRequest` never negotiates again and
leaves the client state unchanged. -/
theorem doRequest_tested (fuel : Nat) (srv : Server) (st : ClientState) (k : Nat)
    (m : Method) (p : String) (h : st.crumbTested = true) :
    (doRequest fuel srv st k m p).state = st
    ∧ (doRequest fuel srv st k m p).negotiations = 0 := by
  cases fuel with
  | zero => exact ⟨rfl, rfl⟩
  | succ fuel =>
      simp only [doRequest]
      split
      · exact ⟨rfl, rfl⟩
      · split
        · rw [if_neg (by simp [h])]
          exact ⟨rfl, rfl⟩
        · exact ⟨rfl, rfl⟩

/-- The `fetchCrumbPost` counts one negotiation and preserves `crumbTested`. -/
theorem fetchCrumbPost_spec (r : DoResult) :
    (fetchCrumbPost r).negotiations = r.negotiations + 1
    ∧ (fetchCrumbPost r).state.crumbTested = r.state.crumbTested := by
  unfold fetchCrumbPost
  rcases r.result with _ | resp
  · exact ⟨rfl, rfl⟩
  · dsimp only
    split
    · exact ⟨rfl, rfl⟩
    · rcases h : resp.crumbBody with _ | cb <;> simp [h]

/-- Core negotiation bound for a single `doRequest` call: at most one
negotiation; no negotiation means the state is untouched; a negotiation
leaves `crumbTested` set. -/
theorem doRequest_neg_spec (fuel : Nat) (srv : Server) (st : ClientState) (k : Nat)
    (m : Method) (p : String) :
    (doRequest fuel srv st k m p).negotiations ≤ 1
    ∧ ((doRequest fuel srv st k m p).negotiations = 0 →
        (doRequest fuel srv st k m p).state = st)
    ∧ ((doRequest fuel srv st k m p).negotiations = 1 →
        (doRequest fuel srv st k m p).state.crumbTested = true) := by
  cases fuel with
  | zero => exact ⟨by simp [doRequest], fun _ => rfl, by simp [doRequest]⟩
  | succ fuel =>
      simp only [doRequest]
      split
      · exact ⟨by simp, fun _ => rfl, by simp⟩
      · split
        · split
          · -- negotiation branch
            have hget := doRequest_get fuel srv { st with crumbTested := true } (k + 1)
              crumbIssuerPath
            have hfc := fetchCrumbPost_spec (doRequest fuel srv
              { st with crumbTested := true } (k + 1) Method.get crumbIssuerPath)
            have hfcTested : (fetchCrumbPost (doRequest fuel srv
                { st with crumbTested := true } (k + 1) Method.get
                crumbIssuerPath)).state.crumbTested = true := by
              rw [hfc.2, hget.1]
            have hfcNeg : (fetchCrumbPost (doRequest fuel srv
                { st with crumbTested := true } (k + 1) Method.get
                crumbIssuerPath)).negotiations = 1 := by
              rw [hfc.1, hget.2]
            split
            · -- crumb fetch succeeded: the retry runs from a tested state
              have hretry := doRequest_tested fuel srv
                (fetchCrumbPost (doRequest fuel srv { st with crumbTested := true }
                  (k + 1) Method.get crumbIssuerPath)).state
                (k + 1 + (fetchCrumbPost (doRequest fuel srv
                  { st with crumbTested := true } (k + 1) Method.get
                  crumbIssuerPath)).trace.length) m p hfcTested
              refine ⟨?_, ?_, ?_⟩
              · show _ + _ ≤ 1
                omega
              · intro hzero
                have h0 : _ + _ = 0 := hzero
                omega
              · intro _
                show (doRequest fuel srv _ _ m p).state.crumbTested = true
                rw [hretry.1]
                exact hfcTested
            · -- crumb fetch failed: the 403 is surfaced, state is the
              -- tested state left by fetchCrumb
              refine ⟨?_, ?_, ?_⟩
              · exact Nat.le_of_eq hfcNeg
              · intro hzero
                have h0 : (fetchCrumbPost (doRequest fuel srv
                    { st with crumbTested := true } (k + 1) Method.get
                    crumbIssuerPath)).negotiations = 0 := hzero
                omega
              · intro _
                exact hfcTested
          · exact ⟨by simp, fun _ => rfl, by simp⟩
        · exact ⟨by simp, fun _ => rfl, by simp⟩

/-- Over any request sequence, the total number of negotiations is bounded
by 1 from an untested state and by 0 from a tested state. -/
theorem runRequests_neg_bound (fuel : Nat) (srv : Server) (reqs : List (Method × String)) :
    ∀ st k, (runRequests fuel srv st k reqs).2.2 ≤ (if st.crumbTested = true then 0 else 1) := by
  induction reqs with
  | nil => intro st k; simp [runRequests]
  | cons req rest ih =>
      intro st k
      obtain ⟨m, p⟩ := req
      simp only [runRequests]
      have hspec := doRequest_neg_spec fuel srv st k m p
      have hrest := ih (doRequest fuel srv st k m p).state
        (k + (doRequest fuel srv st k m p).trace.length)
      by_cases htested : st.crumbTested = true
      · have hd := doRequest_tested fuel srv st k m p htested
        rw [hd.1, if_pos htested] at hrest
        rw [if_pos htested, hd.1]
        have hz := hd.2
        omega
      · rw [if_neg htested]
        rcases Nat.eq_zero_or_pos (doRequest fuel srv st k m p).negotiations with hzero | hpos
        · have hstate := hspec.2.1 hzero
          rw [hstate, if_neg htested] at hrest
          rw [hstate]
          omega
        · have hone : (doRequest fuel srv st k m p).negotiations = 1 :=
            Nat.le_antisymm hspec.1 hpos
          rw [hspec.2.2 hone, if_pos rfl] at hrest
          omega

/-- Claim C1: over any sequence of requests in one client lifetime, at
most one crumb-negotiation attempt is ever made (first conjunct, for every
server behaviour and request sequence from a fresh client); and once
negotiation has run (`crumbTested` is set), a 403 on a mutating request is
surfaced as the authorization error directly, in a single wire request,
with no renegotiation and no retry (second conjunct). -/
theorem c1_crumb_negotiation_once :
    (∀ (fuel : Nat) (srv : Server) (reqs : List (Method × String)),
        (runRequests fuel srv initialClientState 0 reqs).2.2 ≤ 1)
    ∧ (∀ (fuel : Nat) (srv : Server) (st : ClientState) (k : Nat) (m : Method) (p : String),
        st.crumbTested = true → m ≠ Method.get → (srv k).status = 403 →
        doRequest (fuel + 1) srv st k m p =
          { result := .error .accessForbidden, state := st, trace := [mkRequest st m p]
            negotiations := 0 }) := by
  constructor
  · intro fuel srv reqs
    have h := runRequests_neg_bound fuel srv reqs initialClientState 0
    simpa [initialClientState] using h
  · intro fuel srv st k m p htested hm h403
    simp [doRequest, h403, htested]

/-- Witness for `c1_crumb_negotiation_once`: two POSTs against a server
that always answers 403 cause exactly one negotiation; and from a tested
state a 403 POST fails in one wire request. -/
theorem c1_crumb_negotiation_once_witness :
    (runRequests 5 srv403 initialClientState 0
        [(Method.post, "/job/demo/build"), (Method.post, "/job/demo/build")]).2.2 ≤ 1
    ∧ (testedClientState.crumbTested = true ∧ Method.post ≠ Method.get
        ∧ (srv403 0).status = 403
        ∧ doRequest 5 srv403 testedClientState 0 Method.post "/job/demo/build" =
            { result := .error .accessForbidden, state := testedClientState
              trace := [mkRequest testedClientState Method.post "/job/demo/build"]
              negotiations := 0 }) :=
  ⟨c1_crumb_negotiation_once.1 5 srv403 _,
   rfl, by decide, rfl,
   c1_crumb_negotiation_once.2 4 srv403 testedClientState 0 Method.post "/job/demo/build"
     rfl (by decide) rfl⟩

/-- Claim C2 (amended): when a mutating request gets a 403 with the crumb
untested, and the crumb issuer answers 200 (exactly 200; see the
counterexample for other 2xx statuses) with a decodable body carrying a
non-empty crumb and field name, the client caches both, retries the
original request exactly once, and the retried request carries the header
(cached field name, cached crumb) — the full wire trace is: original POST,
one crumb-issuer GET, one retried POST with the crumb header. -/
theorem c2_crumb_retry_with_header (c f path : String) (hc : c ≠ "") (hf : f ≠ "") (fuel : Nat) :
    doRequest (fuel + 3) (crumbServer c f) initialClientState 0 Method.post path =
      { result := .ok { status := 200, crumbBody := none }
        state := { crumb := c, crumbField := f, crumbTested := true }
        trace := [ { method := .post, path := path, crumbHeader := none }
                 , { method := .get, path := crumbIssuerPath, crumbHeader := none }
                 , { method := .post, path := path, crumbHeader := some (f, c) } ]
        negotiations := 1 } := by
  simp [doRequest, fetchCrumbPost, mkRequest, crumbServer, initialClientState, hc, hf]

/-- Witness for `c2_crumb_retry_with_header` at the data of spec
Scenario B. -/
theorem c2_crumb_retry_with_header_witness :
    ("abc" : String) ≠ "" ∧ ("X-Crumb" : String) ≠ ""
    ∧ doRequest 5 (crumbServer "abc" "X-Crumb") initialClientState 0 Method.post "/job/demo/build" =
      { result := .ok { status := 200, crumbBody := none }
        state := { crumb := "abc", crumbField := "X-Crumb", crumbTested := true }
        trace := [ { method := .post, path := "/job/demo/build", crumbHeader := none }
                 , { method := .get, path := crumbIssuerPath, crumbHeader := none }
                 , { method := .post, path := "/job/demo/build", crumbHeader := some ("X-Crumb", "abc") } ]
        negotiations := 1 } :=
  ⟨by decide, by decide,
   c2_crumb_retry_with_header "abc" "X-Crumb" "/job/demo/build" (by decide) (by decide) 2⟩

/-- Claim C2, counterexample to the claim as stated: the crumb issuer
answers 201 — a 2xx status — with a perfectly decodable
`{crumb, crumbRequestField}` body, yet the client treats the negotiation
as failed (`fetchCrumb` accepts exactly 200): nothing is cached, there is
no retry (the wire trace is just the original POST and the issuer GET),
and the original 403 is surfaced. -/
theorem c2_claim_counterexample :
    200 ≤ (crumbServer201 1).status ∧ (crumbServer201 1).status < 300
    ∧ (crumbServer201 1).crumbBody = some ("abc", "X-Crumb")
    ∧ doRequest 5 crumbServer201 initialClientState 0 Method.post "/job/demo/build" =
      { result := .error .accessForbidden
        state := { crumb := "", crumbField := "", crumbTested := true }
        trace := [ { method := .post, path := "/job/demo/build", crumbHeader := none }
                 , { method := .get, path := crumbIssuerPath, crumbHeader := none } ]
        negotiations := 1 } :=
  ⟨by decide, by decide, by decide, by decide⟩

/-! ## C3, C4: message dispatch while a different tab is active -/

/-- Claim C3 is false on the code: a views-data message carrying a view
list, processed while the dashboard tab is active, leaves the entire model
unchanged — in particular the payload is not merged into the views tab's
own model (whose view list stays empty), even though merging it would have
stored the view. -/
theorem c3_claim_counterexample :
    appUpdate 0 readyOnDashboard (.viewsData oneViewMsg) = (readyOnDashboard, [])
    ∧ oneViewMsg.views = some [mkView "alpha"]
    ∧ (viewsMergeData 0 (initialViewsState 80 40) oneViewMsg).views = [mkView "alpha"]
    ∧ (initialViewsState 80 40).views = [] :=
  ⟨by decide, by decide, by decide, by decide⟩

/-- Claim C3 (amended): a tab-data Message processed while a different tab
is active is dropped entirely — `Model.Update` delegates it only to the
active tab's model, whose type switch has no case for it — so no tab model
(and nothing else in the model) changes: there is no cross-tab leakage,
but the payload is lost rather than merged into the originating tab's
model. -/
theorem c3_inactive_tab_message_dropped (now : Int) (m : AppModel)
    (hready : m.state = AppState.ready) :
    (∀ d, m.activeTab ≠ TabID.views → appUpdate now m (.viewsData d) = (m, []))
    ∧ (∀ d, m.activeTab ≠ TabID.dashboard → appUpdate now m (.dashboardData d) = (m, []))
    ∧ (∀ d, m.activeTab ≠ TabID.builds → appUpdate now m (.buildsData d) = (m, [])) := by
  refine ⟨fun d hne => ?_, fun d hne => ?_, fun d hne => ?_⟩ <;>
    · simp only [appUpdate, hready]
      cases htab : m.activeTab <;>
        simp only [updateActiveTab, htab] <;>
        first
          | (exact absurd htab hne)
          | (cases m.dashboardModel <;> rfl)
          | (cases m.viewsModel <;> rfl)
          | (cases m.buildsModel <;> rfl)

/-- Witness for `c3_inactive_tab_message_dropped`: the concrete ready
model with the dashboard active drops a views-data message. -/
theorem c3_inactive_tab_message_dropped_witness :
    readyOnDashboard.state = AppState.ready
    ∧ readyOnDashboard.activeTab ≠ TabID.views
    ∧ appUpdate 7 readyOnDashboard (.viewsData oneViewMsg) = (readyOnDashboard, []) :=
  ⟨rfl, by decide,
   (c3_inactive_tab_message_dropped 7 readyOnDashboard rfl).1 oneViewMsg (by decide)⟩

/-- Claim C4 is false on the code as universally stated: a dashboard-data
message whose error field is non-nil, processed while the views tab is
active, is dropped — the dashboard model's `lastError` stays `nil` instead
of recording the error (the global state does stay `ready`). -/
theorem c4_claim_counterexample :
    dashErrorMsg.error = some "boom"
    ∧ appUpdate 0 readyOnViews (.dashboardData dashErrorMsg) = (readyOnViews, [])
    ∧ (readyOnViews.dashboardModel.map DashboardState.lastError) = some none
    ∧ readyOnViews.state = AppState.ready :=
  ⟨by decide, by decide, by decide, by decide⟩

/-- Claim C4 (amended): while the controller is ready, a tab data message
whose error field is non-nil and whose tab is the active one records the
error in that tab's own `lastError` and leaves everything else — the
global `ready` state, that tab's previously fetched data, and the other
tab models — intact (first two conjuncts, for the views and dashboard
tabs); every tab data message processed in the ready state leaves the
global state `ready` (third conjunct, so a message for an inactive tab is
dropped without reverting the state); and the global state can become
`error` only from a `ClientErrorMsg`, which only the construction-and-
probe path produces (fourth conjunct). -/
theorem c4_ready_error_recorded_per_tab :
    (∀ (now : Int) (m : AppModel) (vm : ViewsState) (e : String),
        m.state = AppState.ready → m.activeTab = TabID.views → m.viewsModel = some vm →
        appUpdate now m (.viewsData { views := none, jobs := none, jobDetail := none, error := some e })
          = ({ m with viewsModel := some { vm with loading := false, lastUpdate := now
                                                   lastError := some e } }, []))
    ∧ (∀ (now : Int) (m : AppModel) (dm : DashboardState) (e : String),
        m.state = AppState.ready → m.activeTab = TabID.dashboard → m.dashboardModel = some dm →
        appUpdate now m (.dashboardData { rootInfo := none, nodes := none, queue := none
                                          jobs := none, error := some e })
          = ({ m with dashboardModel := some { dm with loading := false, lastUpdate := now
                                                       lastError := some e } }, []))
    ∧ (∀ (now : Int) (m : AppModel) (msg : AsyncMsg),
        m.state = AppState.ready → msg.isTabData = true →
        ((appUpdate now m msg).1).state = AppState.ready)
    ∧ (∀ (now : Int) (m : AppModel) (msg : AsyncMsg),
        ((appUpdate now m msg).1).state = AppState.error →
        m.state = AppState.error ∨ ∃ e, msg = .clientError e) := by
  refine ⟨?_, ?_, ?_, ?_⟩
  · intro now m vm e hready htab hvm
    simp [appUpdate, updateActiveTab, hready, htab, hvm, viewsMergeData]
  · intro now m dm e hready htab hdm
    simp [appUpdate, updateActiveTab, hready, htab, hdm, dashboardMergeData]
  · intro now m msg hready hdata
    cases msg <;> simp [AsyncMsg.isTabData] at hdata <;>
      · simp only [appUpdate, hready, updateActiveTab]
        cases m.activeTab <;> cases m.dashboardModel <;> cases m.viewsModel <;>
          cases m.buildsModel <;> simp [hready]
  · intro now m msg herr
    cases msg with
    | clientError e => exact Or.inr ⟨e, rfl⟩
    | autoRefreshTick =>
        left
        by_cases hc : m.state = AppState.ready ∧ m.autoRefreshEnabled = true
        · rw [appUpdate] at herr
          rw [if_pos hc] at herr
          have hstate : ((loadTabData m).1).state = m.state := by
            unfold loadTabData
            cases m.activeTab <;> cases m.dashboardModel <;> cases m.viewsModel <;>
              cases m.buildsModel <;> rfl
          rw [hstate] at herr
          exact herr
        · rw [appUpdate] at herr
          rw [if_neg hc] at herr
          exact herr
    | viewsData d =>
        left
        simp only [appUpdate] at herr
        cases hst : m.state <;> rw [hst] at herr <;>
          first
            | exact herr
            | (exfalso
               revert herr
               unfold updateActiveTab
               cases m.activeTab <;> cases m.dashboardModel <;> cases m.viewsModel <;>
                 cases m.buildsModel <;> simp [hst])
    | dashboardData d =>
        left
        simp only [appUpdate] at herr
        cases hst : m.state <;> rw [hst] at herr <;>
          first
            | exact herr
            | (exfalso
               revert herr
               unfold updateActiveTab
               cases m.activeTab <;> cases m.dashboardModel <;> cases m.viewsModel <;>
                 cases m.buildsModel <;> simp [hst])
    | buildsData d =>
        left
        simp only [appUpdate] at herr
        cases hst : m.state <;> rw [hst] at herr <;>
          first
            | exact herr
            | (exfalso
               revert herr
               unfold updateActiveTab
               cases m.activeTab <;> cases m.dashboardModel <;> cases m.viewsModel <;>
                 cases m.buildsModel <;> simp [hst])

/-- Witness for `c4_ready_error_recorded_per_tab`: a views-data error
message processed while the views tab is active on the concrete ready
model. -/
theorem c4_ready_error_recorded_per_tab_witness :
    readyOnViews.state = AppState.ready
    ∧ readyOnViews.activeTab = TabID.views
    ∧ readyOnViews.viewsModel = some (initialViewsState 80 40)
    ∧ appUpdate 3 readyOnViews
        (.viewsData { views := none, jobs := none, jobDetail := none, error := some "down" })
        = ({ readyOnViews with
               viewsModel := some { initialViewsState 80 40 with
                                      loading := false, lastUpdate := 3
                                      lastError := some "down" } }, []) :=
  ⟨rfl, rfl, rfl,
   c4_ready_error_recorded_per_tab.1 3 readyOnViews (initialViewsState 80 40) "down" rfl rfl rfl⟩

/-! ## C6: auto-refresh scheduling -/

/-- Claim C6 is false on the code as stated: with interval 10 and
dispatched work that takes 15 time units to settle, the tick handler
(processing the tick at time 0) re-arms the timer in the same batch as the
work, so the next tick arrives at time 10 — a fixed interval after the
previous tick's processing — while the dispatched work settles only at
time 15; the next tick is not scheduled at +15. -/
theorem c6_claim_counterexample :
    readyOnViews.autoRefreshInterval = 10
    ∧ tickArrivalTimes 0 (appUpdate 0 readyOnViews .autoRefreshTick).2 = [10]
    ∧ workSettleTimes 0 15 (appUpdate 0 readyOnViews .autoRefreshTick).2 = [15]
    ∧ tickArrivalTimes 0 (appUpdate 0 readyOnViews .autoRefreshTick).2 ≠ [15] :=
  ⟨by decide, by decide, by decide, by decide⟩

/-- Claim C6 (amended): the timer is self-rescheduling in the sense that
each tick is armed by the handler of the previous tick (in the same batch
that dispatches the refresh work), and the next tick fires exactly
`autoRefreshInterval` after the tick is processed — independent of how
long the dispatched work takes to settle, since the work runs
concurrently; it is not anchored to a wall-clock cadence of the first
tick, so processing delays shift all later ticks. -/
theorem c6_next_tick_interval_after_processing (now t : Int) (m : AppModel)
    (hready : m.state = AppState.ready) (hen : m.autoRefreshEnabled = true)
    (hpos : 0 < m.autoRefreshInterval) :
    tickArrivalTimes t (appUpdate now m .autoRefreshTick).2 = [t + m.autoRefreshInterval] := by
  have hsched : scheduleAutoRefresh m = [.tick m.autoRefreshInterval] := by
    unfold scheduleAutoRefresh
    rw [if_neg]
    push_neg
    exact ⟨by simp [hen], by omega⟩
  have hload : tickArrivalTimes t (loadTabData m).2 = [] := by
    unfold loadTabData
    cases m.activeTab <;> cases m.dashboardModel <;> cases m.viewsModel <;>
      cases m.buildsModel <;> rfl
  simp only [appUpdate]
  rw [if_pos ⟨hready, hen⟩]
  simp only [tickArrivalTimes, List.filterMap_append] at *
  rw [hsched]
  simp [hload, tickArrivalTimes]

/-- Witness for `c6_next_tick_interval_after_processing` on the concrete
ready model: the next tick after processing a tick at time 2 arrives at
time 12. -/
theorem c6_next_tick_interval_witness :
    readyOnViews.state = AppState.ready
    ∧ readyOnViews.autoRefreshEnabled = true
    ∧ (0 : Int) < readyOnViews.autoRefreshInterval
    ∧ tickArrivalTimes 2 (appUpdate 0 readyOnViews .autoRefreshTick).2
        = [2 + readyOnViews.autoRefreshInterval] :=
  ⟨rfl, rfl, by decide,
   c6_next_tick_interval_after_processing 0 2 readyOnViews rfl rfl (by decide)⟩

/-! ## C7: back key pops exactly one mode level -/

/-- Claim C7: in the views and builds tabs' mode state machines, pressing
esc in a non-root mode (outside search input modes) moves to exactly the
immediately-enclosing mode and clears precisely the data fields owned by
the mode being exited, leaving every other field unchanged: views
job-detail → jobs drops the job detail; views jobs → list drops the jobs
list and its selection/scroll; builds log views → build detail drop the
log content and log filter; builds build-detail → build-list drops the
build detail and pipeline run; builds build-list → job-list drops the job
detail, the builds list and its selection/scroll. -/
theorem c7_esc_pops_one_level :
    (∀ (now : Int) (m : ViewsState), m.searching = false → m.mode = ViewsMode.jobDetail →
        viewsUpdate now m (.key .esc)
          = some ({ m with mode := m.mode.parent, jobDetail := none }, []))
    ∧ (∀ (now : Int) (m : ViewsState), m.searching = false → m.mode = ViewsMode.jobs →
        viewsUpdate now m (.key .esc)
          = some ({ m with mode := m.mode.parent, jobs := [], selectedJob := 0
                           jobsScroll := 0 }, []))
    ∧ (∀ m : BuildsState, m.searching = false → m.logSearching = false →
        m.mode = BuildsMode.logView ∨ m.mode = BuildsMode.stageLogView →
        buildsEscUpdate m
          = ({ m with mode := m.mode.parent, logContent := "", logFilter := "" }, []))
    ∧ (∀ m : BuildsState, m.searching = false → m.logSearching = false →
        m.mode = BuildsMode.buildDetail →
        buildsEscUpdate m
          = ({ m with mode := m.mode.parent, buildDetail := none, pipelineRun := none }, []))
    ∧ (∀ m : BuildsState, m.searching = false → m.logSearching = false →
        m.mode = BuildsMode.buildList →
        buildsEscUpdate m
          = ({ m with mode := m.mode.parent, jobDetail := none, builds := []
                      selectedBuild := 0, buildsScroll := 0 }, [])) := by
  refine ⟨?_, ?_, ?_, ?_, ?_⟩
  · intro now m hs hm
    simp [viewsUpdate, viewsEscKey, hs, hm, ViewsMode.parent]
  · intro now m hs hm
    simp [viewsUpdate, viewsEscKey, hs, hm, ViewsMode.parent]
  · intro m hs hls hm
    rcases hm with hm | hm <;> simp [buildsEscUpdate, hs, hls, hm, BuildsMode.parent]
  · intro m hs hls hm
    simp [buildsEscUpdate, hs, hls, hm, BuildsMode.parent]
  · intro m hs hls hm
    simp [buildsEscUpdate, hs, hls, hm, BuildsMode.parent]

/-- Witness for `c7_esc_pops_one_level` on concrete states: esc in the
views job-detail state and in the builds build-list state. -/
theorem c7_esc_pops_one_level_witness :
    (viewsInDetail.searching = false ∧ viewsInDetail.mode = ViewsMode.jobDetail
      ∧ viewsUpdate 0 viewsInDetail (.key .esc)
          = some ({ viewsInDetail with mode := viewsInDetail.mode.parent
                                       jobDetail := none }, []))
    ∧ (buildsInList.searching = false ∧ buildsInList.logSearching = false
      ∧ buildsInList.mode = BuildsMode.buildList
      ∧ buildsEscUpdate buildsInList
          = ({ buildsInList with mode := buildsInList.mode.parent, jobDetail := none
                                 builds := [], selectedBuild := 0, buildsScroll := 0 }, [])) :=
  ⟨⟨rfl, rfl, c7_esc_pops_one_level.1 0 viewsInDetail rfl rfl⟩,
   ⟨rfl, rfl, rfl, c7_esc_pops_one_level.2.2.2.2 buildsInList rfl rfl rfl⟩⟩

/-! ## C5: dashboard merge is order-independent -/

/-- Claim C5: the four dashboard fetch commands each produce a message
carrying exactly one non-nil payload field; folding the dashboard merge
over those four messages in any arrival order yields the same final state,
which reflects all four payloads (root info, nodes with the derived
running builds, queue, and the jobs-derived recent builds) — a field not
populated by a message is a no-op on merge, so in particular `lastError`
keeps its previous value.  `now` is the (common) processing time of the
messages. -/
theorem c5_dashboard_merge_any_order (now : Int) (s : DashboardState)
    (r : RootInfo) (nds : List Node) (q : Queue) (js : List Job)
    (l : List DashboardDataMsg)
    (hp : l.Perm
      [ { rootInfo := some r, nodes := none, queue := none, jobs := none, error := none }
      , { rootInfo := none, nodes := some nds, queue := none, jobs := none, error := none }
      , { rootInfo := none, nodes := none, queue := some q, jobs := none, error := none }
      , { rootInfo := none, nodes := none, queue := none, jobs := some js, error := none } ]) :
    l.foldl (dashboardMergeData now) s =
      [ ({ rootInfo := some r, nodes := none, queue := none, jobs := none
           error := none } : DashboardDataMsg)
      , { rootInfo := none, nodes := some nds, queue := none, jobs := none, error := none }
      , { rootInfo := none, nodes := none, queue := some q, jobs := none, error := none }
      , { rootInfo := none, nodes := none, queue := none, jobs := some js, error := none }
      ].foldl (dashboardMergeData now) s
    ∧ (l.foldl (dashboardMergeData now) s).rootInfo = some r
    ∧ (l.foldl (dashboardMergeData now) s).nodes = nds
    ∧ (l.foldl (dashboardMergeData now) s).runningBuilds = extractRunningBuilds now nds
    ∧ (l.foldl (dashboardMergeData now) s).queue = some q
    ∧ (l.foldl (dashboardMergeData now) s).recentBuilds = processJobs js
    ∧ (l.foldl (dashboardMergeData now) s).lastError = s.lastError := by
  have hcomm : ∀ x ∈ l, ∀ y ∈ l, ∀ z : DashboardState,
      dashboardMergeData now (dashboardMergeData now z x) y
        = dashboardMergeData now (dashboardMergeData now z y) x := by
    intro x hx y hy z
    rw [hp.mem_iff] at hx hy
    simp only [List.mem_cons, List.not_mem_nil, or_false] at hx hy
    rcases hx with hx | hx | hx | hx <;> rcases hy with hy | hy | hy | hy <;>
      subst hx <;> subst hy <;> rfl
  have hfold := List.Perm.foldl_eq' hp hcomm s
  refine ⟨hfold, ?_, ?_, ?_, ?_, ?_, ?_⟩ <;> rw [hfold] <;> rfl

/-- Witness for `c5_dashboard_merge_any_order`: the four concrete payload
messages arriving in reversed order produce the canonical merged state. -/
theorem c5_dashboard_merge_any_order_witness :
    ([wJobsMsg, wQueueMsg, wNodesMsg, wRootMsg].Perm [wRootMsg, wNodesMsg, wQueueMsg, wJobsMsg])
    ∧ ([wJobsMsg, wQueueMsg, wNodesMsg, wRootMsg].foldl (dashboardMergeData 1) initialDashboardState
        = [wRootMsg, wNodesMsg, wQueueMsg, wJobsMsg].foldl (dashboardMergeData 1) initialDashboardState)
    ∧ ([wJobsMsg, wQueueMsg, wNodesMsg, wRootMsg].foldl (dashboardMergeData 1)
        initialDashboardState).rootInfo = some wRootInfo :=
  ⟨by decide,
   (c5_dashboard_merge_any_order 1 initialDashboardState wRootInfo [wNode] wQueue [wJob]
      [wJobsMsg, wQueueMsg, wNodesMsg, wRootMsg] (by decide)).1,
   (c5_dashboard_merge_any_order 1 initialDashboardState wRootInfo [wNode] wQueue [wJob]
      [wJobsMsg, wQueueMsg, wNodesMsg, wRootMsg] (by decide)).2.1⟩

end JenkinsTui
